import Mathlib

/-!
Verification development for the search web-app's request-to-query dispatch
and error-normalization layer (`src/web-app/.ipynb_checkpoints/main-checkpoint.py`).

The route handler `search_genappbuilder` and the application-wide error
handler `handle_exception` are embedded shallowly.  The external capability
`search_enterprise_search` (from `genappbuilder_utils`, outside this
repository's sources) is an opaque parameter `cap`; process configuration
(`PROJECT_ID`, `LOCATION`, `CUSTOM_UI_DATASTORE_IDS` from `consts`, also
outside the sources) is a read-only `ProcState` parameter.
-/

/-- Python whitespace characters stripped by `int()` when converting a string
(ASCII subset; non-ASCII whitespace and digits are not modelled). -/
def pyWS (c : Char) : Bool :=
  c = ' ' || c = '\t' || c = '\n' || c = '\r' || c = '\x0b' || c = '\x0c'

/-- Decimal value of an ASCII digit character, or `none`. -/
def digitVal (c : Char) : Option Nat :=
  if '0' ≤ c ∧ c ≤ '9' then some (c.toNat - '0'.toNat) else none

/-- After at least one digit has been read (accumulated in `acc`), consume the
remaining characters: further digits, or a single underscore that must be
followed by a digit (CPython's digit-grouping rule for `int()`). -/
def parseDigitsAux : Nat → List Char → Option Nat
  | acc, [] => some acc
  | acc, '_' :: c :: rest =>
    match digitVal c with
    | some d => parseDigitsAux (acc * 10 + d) rest
    | none => none
  | acc, c :: rest =>
    match digitVal c with
    | some d => parseDigitsAux (acc * 10 + d) rest
    | none => none

/-- Parse a non-empty run of decimal digits (with CPython underscore
grouping) to its value; `none` when the first character is not a digit
or the list is empty. -/
def parseDigitsStart : List Char → Option Nat
  | [] => none
  | c :: rest =>
    match digitVal c with
    | some d => parseDigitsAux d rest
    | none => none

/-- Embeds CPython's built-in `int(s)` conversion of a `str` in base 10 on
ASCII input: optional surrounding whitespace, an optional single sign, then
a non-empty digit run with underscore grouping.  `none` models the
`ValueError` raised on malformed input. -/
def pyInt (s : String) : Option Int :=
  let l := List.dropWhile pyWS s.data
  let l := (List.dropWhile pyWS l.reverse).reverse
  match l with
  | '+' :: rest => (parseDigitsStart rest).map Int.ofNat
  | '-' :: rest => (parseDigitsStart rest).map (fun n => -(Int.ofNat n : Int))
  | rest => (parseDigitsStart rest).map Int.ofNat

/-- Embeds Python list subscription `l[i]` with an `int` index: non-negative
indices address from the front, negative indices address from the back
(`l[i]` is `l[len l + i]` for `-len l ≤ i ≤ -1`); `none` models the
`IndexError` raised outside these ranges. -/
def pyListGet {α : Type} (l : List α) (i : Int) : Option α :=
  let j := if i < 0 then (l.length : Int) + i else i
  if 0 ≤ j then l[j.toNat]? else none

/-- One record of `CUSTOM_UI_DATASTORE_IDS`: the source reads the keys
`"name"` and `"engine_id"` of each entry. -/
structure DatastoreEntry where
  name : String
  engine_id : String
deriving DecidableEq

/-- Modelled from the spec: process-wide, read-only configuration imported by
the handler from `consts` (a module not present in the sources): the project
identifier, the location identifier, and the ordered engine directory
`CUSTOM_UI_DATASTORE_IDS`.  The spec describes them as loaded once at
startup and never mutated, so they are a plain parameter here. -/
structure ProcState where
  PROJECT_ID : String
  LOCATION : String
  CUSTOM_UI_DATASTORE_IDS : List DatastoreEntry
deriving DecidableEq

/-- A POST form submission as read by the handler: `request.form.get` returns
the field's text when present and the supplied default otherwise, so each
field is optional here; the handler defaults `search_query` and
`search_engine` to `""` and leaves the summary fields as `None`. -/
structure Form where
  search_query : Option String
  search_engine : Option String
  summary_model : Option String
  summary_preamble : Option String
deriving DecidableEq

/-- The keyword arguments of one invocation of `search_enterprise_search`. -/
structure CapArgs where
  project_id : String
  location : String
  engine_id : String
  search_query : String
  summary_model : Option String
  summary_preamble : Option String
deriving DecidableEq

/-- The five values returned by `search_enterprise_search` on success.  Their
payloads are opaque to this layer; opaque data is modelled as strings. -/
structure SearchReturn where
  results : List String
  summary : String
  request_url : String
  raw_request : String
  raw_response : String
deriving DecidableEq

/-- A Python exception as observed by `handle_exception`: whether it is a
`werkzeug` `HTTPException` (and then its `get_description()`), whether it is
a `google.api_core` `ResourceExhausted` (and then its `.message`), and its
generic `str(ex)` text.  The `description` and `message` fields are only
meaningful when the corresponding flag is set; the handler never reads them
otherwise. -/
structure PyExc where
  isHTTPException : Bool
  isResourceExhausted : Bool
  description : String
  message : String
  str : String
deriving DecidableEq

/-- The `ValueError` raised by `int(s)` on a malformed string, with CPython's
message text (quoting approximates `repr`).  It is neither an
`HTTPException` nor a `ResourceExhausted`. -/
def valueErrorInt (s : String) : PyExc :=
  { isHTTPException := false
    isResourceExhausted := false
    description := ""
    message := ""
    str := "invalid literal for int() with base 10: '" ++ s ++ "'" }

/-- The `IndexError` raised by out-of-range list subscription, with CPython's
message text. -/
def indexErrorList : PyExc :=
  { isHTTPException := false
    isResourceExhausted := false
    description := ""
    message := ""
    str := "list index out of range" }

/-- The payload handed to the rendering boundary: either a failure render
carrying `message_error`, or a success render carrying `message_success`
and the five values from the external capability.  Static template context
(title, nav links, option lists) is identical on each path and omitted. -/
inductive Rendered where
  | failure (message_error : String)
  | success (message_success : String) (results : List String) (summary : String)
      (request_url : String) (raw_request : String) (raw_response : String)
deriving DecidableEq

/-- Embeds the error handler `handle_exception` registered with
`app.errorhandler(Exception)`: `message_error` is first set to the fixed
fallback, then reassigned on every branch of the `if`/`elif`/`else`
(HTTP description, then quota message, then `str(ex)`), and the failure
render is produced. -/
def handle_exception (ex : PyExc) : Rendered :=
  let message_error := "An Unknown Error Occurred"
  let message_error :=
    if ex.isHTTPException then ex.description
    else if ex.isResourceExhausted then ex.message
    else ex.str
  Rendered.failure message_error

/-- Embeds the body of the route handler `search_genappbuilder`, which in the
source may raise (modelled by `Except.error`): validate `search_query`, then
`search_engine`, then evaluate
`CUSTOM_UI_DATASTORE_IDS[int(search_engine)]["engine_id"]` (either step may
raise), call the external capability `cap` (which may raise), and render
success.  The second component records the arguments of each capability
invocation, in order. -/
def search_genappbuilder_view (st : ProcState)
    (cap : CapArgs → Except PyExc SearchReturn) (form : Form) :
    Except PyExc Rendered × List CapArgs :=
  let search_query := form.search_query.getD ""
  if search_query = "" then
    (Except.ok (Rendered.failure "No query provided"), [])
  else
    let search_engine := form.search_engine.getD ""
    if search_engine = "" then
      (Except.ok (Rendered.failure "No search engine selected"), [])
    else
      let summary_model := form.summary_model
      let summary_preamble := form.summary_preamble
      match pyInt search_engine with
      | none => (Except.error (valueErrorInt search_engine), [])
      | some idx =>
        match pyListGet st.CUSTOM_UI_DATASTORE_IDS idx with
        | none => (Except.error indexErrorList, [])
        | some entry =>
          let args : CapArgs :=
            { project_id := st.PROJECT_ID
              location := st.LOCATION
              engine_id := entry.engine_id
              search_query := search_query
              summary_model := summary_model
              summary_preamble := summary_preamble }
          ((cap args).map (fun r => Rendered.success search_query r.results
            r.summary r.request_url r.raw_request r.raw_response), [args])

/-- One full request: the view runs, and any exception it raises is caught by
the Flask dispatch machinery and routed to `handle_exception`.  Returns the
rendered outcome, the recorded capability invocations, and the process
state after the request (the handler never mutates it). -/
def search_genappbuilder_run (st : ProcState)
    (cap : CapArgs → Except PyExc SearchReturn) (form : Form) :
    Rendered × List CapArgs × ProcState :=
  match search_genappbuilder_view st cap form with
  | (Except.ok r, calls) => (r, calls, st)
  | (Except.error ex, calls) => (handle_exception ex, calls, st)

/-- The rendered outcome of one request (`handle_search` of the spec). -/
def search_genappbuilder (st : ProcState)
    (cap : CapArgs → Except PyExc SearchReturn) (form : Form) : Rendered :=
  (search_genappbuilder_run st cap form).1

/-- The capability invocations made while serving one request. -/
def capCalls (st : ProcState) (cap : CapArgs → Except PyExc SearchReturn)
    (form : Form) : List CapArgs :=
  (search_genappbuilder_run st cap form).2.1


/-- Converting the empty selector string raises `ValueError`. -/
lemma pyInt_empty : pyInt "" = none := rfl

/-- A selector string that converts successfully is non-empty, so the
`search_engine` presence check cannot have fired on it. -/
lemma ne_empty_of_pyInt_some {s : String} {i : Int} (h : pyInt s = some i) :
    s ≠ "" := by
  intro hs
  rw [hs, pyInt_empty] at h
  exact Option.noConfusion h

/-- The `ValueError` text produced by `int()` is never empty. -/
lemma valueErrorInt_str_ne (s : String) : (valueErrorInt s).str ≠ "" := by
  intro hm
  have hlen := congrArg String.length hm
  rw [valueErrorInt] at hlen
  simp only [String.length_append] at hlen
  have h41 : ("invalid literal for int() with base 10: '" : String).length = 41 := rfl
  have h1 : ("'" : String).length = 1 := rfl
  have h0 : ("" : String).length = 0 := rfl
  omega

/-- Serving a request never changes the process state. -/
lemma run_state_eq (st : ProcState) (cap : CapArgs → Except PyExc SearchReturn)
    (form : Form) : (search_genappbuilder_run st cap form).2.2 = st := by
  unfold search_genappbuilder_run
  rcases h : search_genappbuilder_view st cap form with ⟨e | r, calls⟩ <;> simp [h]

/-- C2: a form submission whose `search_query` field is absent or empty is
answered with Failure("No query provided") and the external capability is
never invoked. -/
theorem search_missing_query_rejected (st : ProcState)
    (cap : CapArgs → Except PyExc SearchReturn) (form : Form)
    (hq : form.search_query.getD "" = "") :
    search_genappbuilder st cap form = Rendered.failure "No query provided" ∧
    capCalls st cap form = [] := by
  unfold search_genappbuilder capCalls search_genappbuilder_run search_genappbuilder_view
  simp [hq]

/-- Witness for C2 at a concrete submission with the field absent. -/
theorem search_missing_query_rejected_witness :
    search_genappbuilder ⟨"p", "l", []⟩ (fun _ => Except.error indexErrorList)
        ⟨none, some "0", none, none⟩ = Rendered.failure "No query provided" ∧
    capCalls ⟨"p", "l", []⟩ (fun _ => Except.error indexErrorList)
        ⟨none, some "0", none, none⟩ = [] :=
  search_missing_query_rejected ⟨"p", "l", []⟩ _ _ rfl

/-- C3: a submission with a non-empty `search_query` but an absent or empty
`search_engine` is answered with Failure("No search engine selected") and
the external capability is never invoked; when both fields are missing, the
query check takes precedence and the outcome is Failure("No query
provided"). -/
theorem search_missing_engine_rejected :
    (∀ (st : ProcState) (cap : CapArgs → Except PyExc SearchReturn) (form : Form),
      form.search_query.getD "" ≠ "" → form.search_engine.getD "" = "" →
      search_genappbuilder st cap form = Rendered.failure "No search engine selected" ∧
      capCalls st cap form = []) ∧
    (∀ (st : ProcState) (cap : CapArgs → Except PyExc SearchReturn) (form : Form),
      form.search_query.getD "" = "" → form.search_engine.getD "" = "" →
      search_genappbuilder st cap form = Rendered.failure "No query provided") := by
  constructor
  · intro st cap form hq he
    unfold search_genappbuilder capCalls search_genappbuilder_run search_genappbuilder_view
    simp [hq, he]
  · intro st cap form hq he
    unfold search_genappbuilder search_genappbuilder_run search_genappbuilder_view
    simp [hq]

/-- Witness for C3: an empty engine field with a query present, and a fully
missing form. -/
theorem search_missing_engine_rejected_witness :
    (search_genappbuilder ⟨"p", "l", []⟩ (fun _ => Except.error indexErrorList)
        ⟨some "q", some "", none, none⟩ = Rendered.failure "No search engine selected" ∧
      capCalls ⟨"p", "l", []⟩ (fun _ => Except.error indexErrorList)
        ⟨some "q", some "", none, none⟩ = []) ∧
    search_genappbuilder ⟨"p", "l", []⟩ (fun _ => Except.error indexErrorList)
        ⟨none, none, none, none⟩ = Rendered.failure "No query provided" :=
  ⟨search_missing_engine_rejected.1 ⟨"p", "l", []⟩ _ _ (by decide) rfl,
    search_missing_engine_rejected.2 ⟨"p", "l", []⟩ _ _ rfl rfl⟩

/-- C1: when the query is present and the selector resolves to a directory
entry and the capability succeeds, the capability is invoked exactly once
with the resolved engine identifier, the raw query text, and the summary
fields passed through unmodified, and the five returned values map 1:1 into
the success render, with the query echoed as `message_success`. -/
theorem search_success_dispatch (st : ProcState)
    (cap : CapArgs → Except PyExc SearchReturn) (form : Form)
    (i : Int) (entry : DatastoreEntry) (r : SearchReturn)
    (hq : form.search_query.getD "" ≠ "")
    (hi : pyInt (form.search_engine.getD "") = some i)
    (he : pyListGet st.CUSTOM_UI_DATASTORE_IDS i = some entry)
    (hc : cap { project_id := st.PROJECT_ID, location := st.LOCATION,
                engine_id := entry.engine_id,
                search_query := form.search_query.getD "",
                summary_model := form.summary_model,
                summary_preamble := form.summary_preamble } = Except.ok r) :
    capCalls st cap form =
      [{ project_id := st.PROJECT_ID, location := st.LOCATION,
         engine_id := entry.engine_id,
         search_query := form.search_query.getD "",
         summary_model := form.summary_model,
         summary_preamble := form.summary_preamble }] ∧
    search_genappbuilder st cap form =
      Rendered.success (form.search_query.getD "") r.results r.summary
        r.request_url r.raw_request r.raw_response := by
  have hne := ne_empty_of_pyInt_some hi
  unfold capCalls search_genappbuilder search_genappbuilder_run search_genappbuilder_view
  simp [hq, hne, hi, he, hc, Except.map]

/-- Witness for C1 at a concrete one-entry directory, selector "0", an
absent summary model and an empty (but present) summary preamble. -/
theorem search_success_dispatch_witness :
    capCalls ⟨"p", "l", [⟨"n", "e0"⟩]⟩
        (fun _ => Except.ok ⟨["r1"], "sum", "url", "rq", "rr"⟩)
        ⟨some "q", some "0", none, some ""⟩ = [⟨"p", "l", "e0", "q", none, some ""⟩] ∧
    search_genappbuilder ⟨"p", "l", [⟨"n", "e0"⟩]⟩
        (fun _ => Except.ok ⟨["r1"], "sum", "url", "rq", "rr"⟩)
        ⟨some "q", some "0", none, some ""⟩
      = Rendered.success "q" ["r1"] "sum" "url" "rq" "rr" :=
  search_success_dispatch ⟨"p", "l", [⟨"n", "e0"⟩]⟩ _ _ 0 ⟨"n", "e0"⟩
    ⟨["r1"], "sum", "url", "rq", "rr"⟩ (by decide) rfl rfl rfl

/-- Counterexample to C4 as stated: the selector "-1" is out of range as a
zero-based index into a one-entry directory, yet the handler invokes the
external capability (with the last entry) and returns a success render, not
a Failure. -/
theorem negative_selector_not_rejected :
    search_genappbuilder ⟨"p", "l", [⟨"n", "e0"⟩]⟩
        (fun _ => Except.ok ⟨["r1"], "sum", "url", "rq", "rr"⟩)
        ⟨some "q", some "-1", none, none⟩
      = Rendered.success "q" ["r1"] "sum" "url" "rq" "rr" ∧
    capCalls ⟨"p", "l", [⟨"n", "e0"⟩]⟩
        (fun _ => Except.ok ⟨["r1"], "sum", "url", "rq", "rr"⟩)
        ⟨some "q", some "-1", none, none⟩
      = [⟨"p", "l", "e0", "q", none, none⟩] :=
  ⟨rfl, rfl⟩

/-- C4 (amended): for a selector string that fails integer conversion, or
whose converted integer is out of range as a Python list index (at least the
directory length, or below its negation), the outcome is a Failure with a
non-empty `error_message` and the external capability is never invoked. -/
theorem invalid_selector_fails_without_dispatch (st : ProcState)
    (cap : CapArgs → Except PyExc SearchReturn) (form : Form)
    (hq : form.search_query.getD "" ≠ "")
    (h : pyInt (form.search_engine.getD "") = none ∨
      ∃ i, pyInt (form.search_engine.getD "") = some i ∧
        pyListGet st.CUSTOM_UI_DATASTORE_IDS i = none) :
    (∃ m, search_genappbuilder st cap form = Rendered.failure m ∧ m ≠ "") ∧
    capCalls st cap form = [] := by
  by_cases hE : form.search_engine.getD "" = ""
  · refine ⟨⟨"No search engine selected", ?_, by decide⟩, ?_⟩ <;>
      simp [search_genappbuilder, capCalls, search_genappbuilder_run,
        search_genappbuilder_view, hq, hE]
  · rcases h with hn | ⟨i, hi, hg⟩
    · refine ⟨⟨(valueErrorInt (form.search_engine.getD "")).str, ?_,
        valueErrorInt_str_ne _⟩, ?_⟩ <;>
        simp [search_genappbuilder, capCalls, search_genappbuilder_run,
          search_genappbuilder_view, hq, hE, hn, handle_exception, valueErrorInt]
    · refine ⟨⟨"list index out of range", ?_, by decide⟩, ?_⟩ <;>
        simp [search_genappbuilder, capCalls, search_genappbuilder_run,
          search_genappbuilder_view, hq, hE, hi, hg, handle_exception, indexErrorList]

/-- Witness for amended C4: a non-numeric selector and an out-of-range
numeric selector against an empty directory. -/
theorem invalid_selector_fails_without_dispatch_witness :
    ((∃ m, search_genappbuilder ⟨"p", "l", []⟩ (fun _ => Except.error indexErrorList)
        ⟨some "q", some "abc", none, none⟩ = Rendered.failure m ∧ m ≠ "") ∧
      capCalls ⟨"p", "l", []⟩ (fun _ => Except.error indexErrorList)
        ⟨some "q", some "abc", none, none⟩ = []) ∧
    ((∃ m, search_genappbuilder ⟨"p", "l", []⟩ (fun _ => Except.error indexErrorList)
        ⟨some "q", some "7", none, none⟩ = Rendered.failure m ∧ m ≠ "") ∧
      capCalls ⟨"p", "l", []⟩ (fun _ => Except.error indexErrorList)
        ⟨some "q", some "7", none, none⟩ = []) :=
  ⟨invalid_selector_fails_without_dispatch ⟨"p", "l", []⟩ _ _ (by decide) (Or.inl rfl),
    invalid_selector_fails_without_dispatch ⟨"p", "l", []⟩ _ _ (by decide)
      (Or.inr ⟨7, rfl, rfl⟩)⟩

/-- C9: a selector that converts to a negative integer `i` with
`-len ≤ i ≤ -1` does not fail resolution: the parsed value is used directly
as a Python list index, so the capability is invoked with the engine at
position `len + i` of the directory. -/
theorem negative_selector_resolves_from_back (st : ProcState)
    (cap : CapArgs → Except PyExc SearchReturn) (form : Form) (i : Int)
    (hq : form.search_query.getD "" ≠ "")
    (hi : pyInt (form.search_engine.getD "") = some i)
    (hlo : -(st.CUSTOM_UI_DATASTORE_IDS.length : Int) ≤ i)
    (hhi : i ≤ -1) :
    ∃ entry : DatastoreEntry,
      st.CUSTOM_UI_DATASTORE_IDS[((st.CUSTOM_UI_DATASTORE_IDS.length : Int) + i).toNat]?
        = some entry ∧
      capCalls st cap form =
        [{ project_id := st.PROJECT_ID, location := st.LOCATION,
           engine_id := entry.engine_id,
           search_query := form.search_query.getD "",
           summary_model := form.summary_model,
           summary_preamble := form.summary_preamble }] := by
  have hne := ne_empty_of_pyInt_some hi
  have hjlt : ((st.CUSTOM_UI_DATASTORE_IDS.length : Int) + i).toNat
      < st.CUSTOM_UI_DATASTORE_IDS.length := by omega
  have hentry := List.getElem?_eq_getElem hjlt
  refine ⟨_, hentry, ?_⟩
  have hpg : pyListGet st.CUSTOM_UI_DATASTORE_IDS i =
      some st.CUSTOM_UI_DATASTORE_IDS[((st.CUSTOM_UI_DATASTORE_IDS.length : Int) + i).toNat] := by
    simp only [pyListGet]
    rw [if_pos (show i < 0 by omega), if_pos (show
      (0 : Int) ≤ (st.CUSTOM_UI_DATASTORE_IDS.length : Int) + i by omega)]
    exact hentry
  simp [capCalls, search_genappbuilder_run, search_genappbuilder_view,
    hq, hne, hi, hpg]
  rcases (cap _).map _ with e | r <;> rfl

/-- Witness for C9: selector "-1" against a one-entry directory invokes the
capability with the single (last) entry's engine identifier. -/
theorem negative_selector_resolves_from_back_witness :
    ∃ entry : DatastoreEntry,
      ([(⟨"n", "e0"⟩ : DatastoreEntry)])[((([(⟨"n", "e0"⟩ : DatastoreEntry)]).length : Int)
        + (-1)).toNat]? = some entry ∧
      capCalls ⟨"p", "l", [⟨"n", "e0"⟩]⟩
        (fun _ => Except.ok ⟨["r1"], "sum", "url", "rq", "rr"⟩)
        ⟨some "q", some "-1", none, none⟩ =
        [{ project_id := "p", location := "l", engine_id := entry.engine_id,
           search_query := "q", summary_model := none, summary_preamble := none }] :=
  negative_selector_resolves_from_back ⟨"p", "l", [⟨"n", "e0"⟩]⟩ _ _ (-1)
    (by decide) rfl (by decide) (by decide)

/-- C5: a quota-exhaustion fault that is not an HTTP-described fault yields
the fault's dedicated message field verbatim, and in general the message is
derived by the fixed first-matching-wins precedence of the
`if`/`elif`/`else` (HTTP description, then quota message, then `str(ex)`;
the fixed fallback stands behind all three). -/
theorem quota_fault_message_verbatim :
    (∀ ex : PyExc, ex.isHTTPException = false → ex.isResourceExhausted = true →
      handle_exception ex = Rendered.failure ex.message) ∧
    (∀ ex : PyExc, handle_exception ex = Rendered.failure
      (if ex.isHTTPException = true then ex.description
        else if ex.isResourceExhausted = true then ex.message
        else ex.str)) := by
  refine ⟨fun ex h1 h2 => ?_, fun ex => rfl⟩
  simp [handle_exception, h1, h2]

/-- Witness for C5 at a concrete `ResourceExhausted` fault. -/
theorem quota_fault_message_verbatim_witness :
    handle_exception ⟨false, true, "desc", "Quota exceeded for quota metric", "txt"⟩ =
      Rendered.failure "Quota exceeded for quota metric" :=
  quota_fault_message_verbatim.1
    ⟨false, true, "desc", "Quota exceeded for quota metric", "txt"⟩ rfl rfl

/-- Counterexample to C6 as stated: a fault with no structured message and an
empty textual representation yields Failure("") — not the fixed fallback
"An Unknown Error Occurred", which the `else` branch overwrites. -/
theorem empty_fault_not_fallback :
    handle_exception ⟨false, false, "", "", ""⟩ = Rendered.failure "" ∧
    Rendered.failure "" ≠ Rendered.failure "An Unknown Error Occurred" :=
  ⟨rfl, by decide⟩

/-- C6 (amended): a fault that is neither an HTTP-described fault nor a
quota-exhaustion fault yields the fault's generic textual representation
(possibly empty), never the fixed fallback string. -/
theorem unstructured_fault_uses_str (ex : PyExc)
    (h1 : ex.isHTTPException = false) (h2 : ex.isResourceExhausted = false) :
    handle_exception ex = Rendered.failure ex.str := by
  simp [handle_exception, h1, h2]

/-- Witness for amended C6 at a concrete transport-style fault. -/
theorem unstructured_fault_uses_str_witness :
    handle_exception ⟨false, false, "d", "m", "connection reset"⟩ =
      Rendered.failure "connection reset" :=
  unstructured_fault_uses_str ⟨false, false, "d", "m", "connection reset"⟩ rfl rfl

/-- C10: for a fault that is neither HTTP-described nor quota-exhaustion the
message is exactly `str(ex)` (even when that is the empty string, as the
witness shows), and on every path the initial fallback assignment is
overwritten: the result is always the HTTP description, the quota message,
or the generic representation. -/
theorem fallback_never_returned :
    (∀ ex : PyExc, ex.isHTTPException = false → ex.isResourceExhausted = false →
      handle_exception ex = Rendered.failure ex.str) ∧
    (∀ ex : PyExc, handle_exception ex = Rendered.failure ex.description ∨
      handle_exception ex = Rendered.failure ex.message ∨
      handle_exception ex = Rendered.failure ex.str) := by
  constructor
  · intro ex h1 h2
    simp [handle_exception, h1, h2]
  · intro ex
    by_cases h1 : ex.isHTTPException = true
    · exact Or.inl (by simp [handle_exception, h1])
    · by_cases h2 : ex.isResourceExhausted = true
      · exact Or.inr (Or.inl (by simp [handle_exception, h1, h2]))
      · exact Or.inr (Or.inr (by simp [handle_exception, h1, h2]))

/-- Witness for C10: an empty `str(ex)` is returned as-is, not replaced by
the fallback. -/
theorem fallback_never_returned_witness :
    handle_exception ⟨false, false, "d", "m", ""⟩ = Rendered.failure "" :=
  fallback_never_returned.1 ⟨false, false, "d", "m", ""⟩ rfl rfl

/-- C7: every request produces a renderable outcome — a failure or a success
render — and whenever the view raises a fault, the served outcome is the
error handler's conversion of that fault, which is always a Failure render,
never the raw fault. -/
theorem every_request_renders_outcome :
    (∀ (st : ProcState) (cap : CapArgs → Except PyExc SearchReturn) (form : Form),
      (∃ m, search_genappbuilder st cap form = Rendered.failure m) ∨
      ∃ q res su u rq rr, search_genappbuilder st cap form =
        Rendered.success q res su u rq rr) ∧
    (∀ (st : ProcState) (cap : CapArgs → Except PyExc SearchReturn) (form : Form)
      (ex : PyExc), (search_genappbuilder_view st cap form).1 = Except.error ex →
      search_genappbuilder st cap form = handle_exception ex ∧
      ∃ m, search_genappbuilder st cap form = Rendered.failure m) := by
  constructor
  · intro st cap form
    cases search_genappbuilder st cap form with
    | failure m => exact Or.inl ⟨m, rfl⟩
    | success q res su u rq rr => exact Or.inr ⟨q, res, su, u, rq, rr, rfl⟩
  · intro st cap form ex h
    have hrun : search_genappbuilder st cap form = handle_exception ex := by
      unfold search_genappbuilder search_genappbuilder_run
      rcases hv : search_genappbuilder_view st cap form with ⟨er, calls⟩
      rw [hv] at h
      simp only at h
      subst h
      rfl
    exact ⟨hrun, hrun ▸ ⟨_, rfl⟩⟩

/-- Witness for C7: a non-numeric selector makes the view raise `ValueError`,
and the served outcome is the handler's Failure render. -/
theorem every_request_renders_outcome_witness :
    search_genappbuilder ⟨"p", "l", []⟩ (fun _ => Except.error indexErrorList)
        ⟨some "q", some "x", none, none⟩ = handle_exception (valueErrorInt "x") ∧
    ∃ m, search_genappbuilder ⟨"p", "l", []⟩ (fun _ => Except.error indexErrorList)
        ⟨some "q", some "x", none, none⟩ = Rendered.failure m :=
  every_request_renders_outcome.2 ⟨"p", "l", []⟩ _ _ (valueErrorInt "x") rfl

/-- C8: the handler never mutates the process state, so serving the same
submission a second time against the same deterministic capability — from
the state the first request left behind — yields an identical outcome. -/
theorem handle_search_idempotent (st : ProcState)
    (cap : CapArgs → Except PyExc SearchReturn) (form : Form) :
    search_genappbuilder ((search_genappbuilder_run st cap form).2.2) cap form =
      search_genappbuilder st cap form ∧
    (search_genappbuilder_run st cap form).2.2 = st ∧
    (search_genappbuilder_run ((search_genappbuilder_run st cap form).2.2)
      cap form).2.2 = st := by
  have h := run_state_eq st cap form
  exact ⟨by rw [h], h, by rw [h]; exact run_state_eq st cap form⟩
